import Mathlib

/-
Verification of the port_scanner package (scanner.py, utils.py).

The Python source is shallowly embedded: pure functions become Lean
functions over String / List Char / Int; the network is an explicit
environment (oracle) giving each connection attempt its outcome; the
asyncio semaphore that bounds concurrency is modelled as a step relation
on an explicit pool state.
-/

namespace PortScanner

/-! ### Python string and integer primitives

Models of the CPython built-ins used by `scanner.py` / `utils.py`:
`str.strip`, `str.split(sep)`, `str.split(sep, 1)`, `int(...)`,
`range(a, b)`, `str.lower`, substring containment (`in`), and
`bytes.decode(errors="ignore")`. -/

/-- Model of Python `str.strip()`: drop whitespace from both ends. -/
def pyStrip (cs : List Char) : List Char :=
  ((cs.dropWhile Char.isWhitespace).reverse.dropWhile Char.isWhitespace).reverse

/-- Model of Python `s.split(sep)` for a one-character separator:
splits at every occurrence; `"".split(sep) == [""]`. -/
def pySplit (sep : Char) : List Char → List (List Char)
  | [] => [[]]
  | c :: rest =>
    if c = sep then [] :: pySplit sep rest
    else
      match pySplit sep rest with
      | [] => [[c]]
      | p :: ps => (c :: p) :: ps

/-- Model of Python `s.split(sep, 1)` when `sep` occurs in `s`:
the part before the first separator and the part after it. -/
def pySplit1 (sep : Char) (cs : List Char) : List Char × List Char :=
  (cs.takeWhile (· != sep), (cs.dropWhile (· != sep)).drop 1)

/-- Numeric value of an ASCII digit. -/
def digitVal (c : Char) : Nat := c.toNat - '0'.toNat

/-- Digit run of a Python integer literal after the first digit:
further digits, with single underscores allowed only between digits. -/
def pyDigitsAux : Nat → List Char → Option Nat
  | acc, [] => some acc
  | acc, '_' :: c :: rest =>
    if c.isDigit then pyDigitsAux (acc * 10 + digitVal c) rest else none
  | _, ['_'] => none
  | acc, c :: rest =>
    if c.isDigit then pyDigitsAux (acc * 10 + digitVal c) rest else none

/-- Nonempty digit run (underscore rules as in Python 3 `int`). -/
def pyDigits : List Char → Option Nat
  | [] => none
  | c :: rest => if c.isDigit then pyDigitsAux (digitVal c) rest else none

/-- Model of Python `int(s)`: surrounding whitespace stripped, optional
sign, then a digit run; anything else raises `ValueError`, modelled as
`none`. -/
def pyInt (cs : List Char) : Option Int :=
  match pyStrip cs with
  | '+' :: ds => (pyDigits ds).map Int.ofNat
  | '-' :: ds => (pyDigits ds).map fun n => -(n : Int)
  | ds => (pyDigits ds).map Int.ofNat

/-- Consecutive integers starting at `a`, of the given length. -/
def pyRangeAux (a : Int) : Nat → List Int
  | 0 => []
  | n + 1 => a :: pyRangeAux (a + 1) n

/-- Model of Python `range(a, b)` as a list of integers. -/
def pyRange (a b : Int) : List Int := pyRangeAux a (b - a).toNat

/-- Model of Python `sub in hay` substring containment. -/
def containsSub (sub : List Char) : List Char → Bool
  | [] => sub.isEmpty
  | c :: rest => sub.isPrefixOf (c :: rest) || containsSub sub rest

/-- Model of Python `str.lower()` (ASCII case folding). -/
def pyLower (cs : List Char) : List Char := cs.map Char.toLower

/-! ### utils.py -/

/-- Constant `TOP_TCP_PORTS` from utils.py: curated default port list. -/
def TOP_TCP_PORTS : List Int :=
  [21, 22, 23, 25, 53, 80, 110, 111, 135, 139, 143, 443, 445,
   587, 993, 995, 3306, 3389, 5900, 8080]

/-- Constant `SERVICE_MAP` from utils.py: fixed port-number → service table. -/
def SERVICE_MAP : List (Int × String) :=
  [(21, "ftp"), (22, "ssh"), (23, "telnet"), (25, "smtp"), (53, "dns"),
   (80, "http"), (110, "pop3"), (143, "imap"), (443, "https"),
   (3306, "mysql"), (3389, "rdp"), (5900, "vnc"), (8080, "http-alt")]

/-- Function `infer_service(port, banner)` from utils.py: port-table lookup first;
otherwise, for a truthy banner, the ordered case-insensitive keyword
rules; otherwise `None`. -/
def infer_service (port : Int) (banner : Option String) : Option String :=
  match SERVICE_MAP.lookup port with
  | some s => some s
  | none =>
    match banner with
    | none => none
    | some bs =>
      if bs.data.isEmpty then none
      else
        let b := pyLower bs.data
        if containsSub "ssh".data b then some "ssh"
        else if containsSub "http".data b || containsSub "apache".data b
            || containsSub "nginx".data b then some "http"
        else if containsSub "smtp".data b then some "smtp"
        else if containsSub "mysql".data b || containsSub "mariadb".data b then some "mysql"
        else if containsSub "rdp".data b || containsSub "mstsc".data b then some "rdp"
        else none

/-! ### parse_ports (scanner.py) -/

/-- One iteration of the `for part in ports_arg.split(",")` loop in
`parse_ports`: the Python `set` is modelled as a duplicate-free list,
`set.add` as `List.insert` and `set.update(range(...))` as a fold of
`List.insert` over the range. -/
def addPart (acc : List Int) (part0 : List Char) : List Int :=
  let part := pyStrip part0
  if '-' ∈ part then
    match pyInt (pySplit1 '-' part).1, pyInt (pySplit1 '-' part).2 with
    | some a, some b => (pyRange a (b + 1)).foldl (fun s x => s.insert x) acc
    | _, _ => acc
  else
    match pyInt part with
    | some n => acc.insert n
    | none => acc

/-- In-range predicate of the final comprehension `1 <= p <= 65535`. -/
def inPortRange (p : Int) : Bool := 1 ≤ p && p ≤ 65535

/-- Function `parse_ports(ports_arg)` from scanner.py. `None` and `""` are both
falsy, returning a copy of `TOP_TCP_PORTS`; otherwise the comma-separated
parts are folded into a set and the in-range members are returned sorted
(Python `sorted` modelled by insertion sort). -/
def parse_ports (ports_arg : Option String) : List Int :=
  match ports_arg with
  | none => TOP_TCP_PORTS
  | some s =>
    if s = "" then TOP_TCP_PORTS
    else
      let ports := (pySplit ',' s.data).foldl addPart []
      List.insertionSort (· ≤ ·) (ports.filter inPortRange)

/-! ### bytes.decode(errors="ignore")

UTF-8 decoding as in CPython: valid sequences are decoded, and on an
invalid sequence the maximal invalid subpart (the lead byte together
with the continuation bytes that matched so far) is skipped. -/

/-- A UTF-8 continuation byte. -/
def isCont (b : Nat) : Bool := 0x80 ≤ b && b ≤ 0xBF

/-- Allowed second byte after a 3-byte lead (surrogates excluded). -/
def cont2ok (b1 b2 : Nat) : Bool :=
  if b1 = 0xE0 then 0xA0 ≤ b2 && b2 ≤ 0xBF
  else if b1 = 0xED then 0x80 ≤ b2 && b2 ≤ 0x9F
  else isCont b2

/-- Allowed second byte after a 4-byte lead (planes 1–16 only). -/
def cont4ok (b1 b2 : Nat) : Bool :=
  if b1 = 0xF0 then 0x90 ≤ b2 && b2 ≤ 0xBF
  else if b1 = 0xF4 then 0x80 ≤ b2 && b2 ≤ 0x8F
  else isCont b2

/-- Decoding loop; `fuel` only bounds the number of steps (each step
consumes at least one byte, so the input length is always enough). -/
def decodeAux : Nat → List Nat → List Char
  | 0, _ => []
  | _ + 1, [] => []
  | fuel + 1, b1 :: tl =>
    if b1 < 0x80 then Char.ofNat b1 :: decodeAux fuel tl
    else if 0xC2 ≤ b1 && b1 ≤ 0xDF then
      match tl with
      | [] => []
      | b2 :: tl2 =>
        if isCont b2 then
          Char.ofNat ((b1 - 0xC0) * 64 + (b2 - 0x80)) :: decodeAux fuel tl2
        else decodeAux fuel tl
    else if 0xE0 ≤ b1 && b1 ≤ 0xEF then
      match tl with
      | [] => []
      | [_] => []
      | b2 :: b3 :: tl3 =>
        if cont2ok b1 b2 then
          if isCont b3 then
            Char.ofNat ((b1 - 0xE0) * 4096 + (b2 - 0x80) * 64 + (b3 - 0x80))
              :: decodeAux fuel tl3
          else decodeAux fuel (b3 :: tl3)
        else decodeAux fuel (b2 :: b3 :: tl3)
    else if 0xF0 ≤ b1 && b1 ≤ 0xF4 then
      match tl with
      | [] => []
      | [_] => []
      | [b2, b3] =>
        if cont4ok b1 b2 && isCont b3 then [] else
        if cont4ok b1 b2 then decodeAux fuel [b3] else decodeAux fuel [b2, b3]
      | b2 :: b3 :: b4 :: tl4 =>
        if cont4ok b1 b2 then
          if isCont b3 then
            if isCont b4 then
              Char.ofNat ((b1 - 0xF0) * 262144 + (b2 - 0x80) * 4096
                  + (b3 - 0x80) * 64 + (b4 - 0x80)) :: decodeAux fuel tl4
            else decodeAux fuel (b4 :: tl4)
          else decodeAux fuel (b3 :: b4 :: tl4)
        else decodeAux fuel (b2 :: b3 :: b4 :: tl4)
    else decodeAux fuel tl

/-- Model of Python `bytes.decode(errors="ignore")` for UTF-8 input. -/
def decodeUtf8Ignore (bs : List Nat) : List Char := decodeAux bs.length bs

/-! ### The scan engine (scanner.py), over an explicit network oracle

Network I/O is shallowly embedded: each connection attempt is answered
by a `ConnectOutcome`, and an established connection carries the
`ReadOutcome` its reader will produce for the single banner read.
Exceptions that the source does not catch are carried explicitly in
`Except`, since they propagate out of `grab_banner`, through
`scan_port`, and through `asyncio.gather` out of `run_scan`. -/

/-- An exception raised by `reader.read` that `grab_banner`'s except
clause (`asyncio.TimeoutError`, `asyncio.IncompleteReadError`) does not
catch — canonically `ConnectionResetError`, the `OSError` that asyncio
sets on the reader when the peer resets after accepting. -/
inductive ScanError where
  | connectionReset
deriving DecidableEq, Repr

deriving instance DecidableEq for Except

/-- Outcome of the single `reader.read(256)` performed on an open
connection (as answered by the peer / event loop): data (possibly
empty), one of the two caught exceptions, or an uncaught exception. -/
inductive ReadOutcome where
  | bytesArrived (bs : List Nat)
  | readTimeout
  | incompleteRead
  | readError (e : ScanError)
deriving DecidableEq, Repr

/-- Outcome of one TCP connect attempt: success (with the connection's
pending read behaviour) or one of the three failures caught by
`try_connect`. -/
inductive ConnectOutcome where
  | success (r : ReadOutcome)
  | connectTimeout
  | refused
  | osError
deriving DecidableEq, Repr

/-- Function `try_connect` from scanner.py: returns the (reader, writer) pair on
success; `asyncio.TimeoutError`, `ConnectionRefusedError` and `OSError`
are all caught and become `None`. -/
def try_connect : ConnectOutcome → Option ReadOutcome
  | .success r => some r
  | .connectTimeout => none
  | .refused => none
  | .osError => none

/-- Observable I/O events of `grab_banner`: the bounded read attempt and
the close of the writer. -/
inductive BEvent where
  | readCall (maxBytes : Nat)
  | closeCall
deriving DecidableEq, Repr

/-- Scoped try/finally over an exception-carrying, event-emitting
computation: the finalizer's events follow the body's events on every
exit — normal or exceptional — and the body's outcome (value, or the
exception being re-raised) is preserved. The source's finalizer wraps
`writer.close()` in its own try/except-pass, so it never raises. -/
def tryFinally {α : Type} (body : Except ScanError α × List BEvent)
    (finalizer : List BEvent) : Except ScanError α × List BEvent :=
  (body.1, body.2 ++ finalizer)

/-- Function `grab_banner` from scanner.py: one `reader.read(256)` bounded by the
banner timeout; truthy data is decoded permissively and stripped; empty
data, timeout and `IncompleteReadError` give `None`; an exception
outside the except clause propagates; the `finally` closes the writer
on every exit. Returns the outcome together with the I/O events. -/
def grab_banner (r : ReadOutcome) : Except ScanError (Option String) × List BEvent :=
  tryFinally
    (match r with
      | .bytesArrived bs =>
        (Except.ok (if bs.isEmpty then none
          else some (String.mk (pyStrip (decodeUtf8Ignore bs)))), [.readCall 256])
      | .readTimeout => (Except.ok none, [.readCall 256])
      | .incompleteRead => (Except.ok none, [.readCall 256])
      | .readError e => (Except.error e, [.readCall 256]))
    [.closeCall]

/-- The per-port result record built by `scan_port`. -/
structure PortResult where
  port : Int
  status : String
  banner : Option String
  service : Option String
deriving DecidableEq, Repr

/-- Function `scan_port` from scanner.py (the semaphore is modelled separately by
`PoolStep`): start from the closed record; on a successful connect mark
open, grab the banner and infer the service. `scan_port` has no handler
of its own, so an uncaught exception from `grab_banner` propagates. -/
def scan_port (outcome : ConnectOutcome) (port : Int) : Except ScanError PortResult :=
  match try_connect outcome with
  | none => .ok { port := port, status := "closed", banner := none, service := none }
  | some r =>
    match (grab_banner r).1 with
    | .error e => .error e
    | .ok banner =>
      Except.ok
        { port := port, status := "open", banner := banner,
          service := infer_service port banner }

/-- The network oracle: target resolution (utils.py `resolve_target`,
an external collaborator that yields an address or fails) and the
outcome of each connection attempt. -/
structure NetEnv where
  resolve : String → Option String
  connect : String → Int → ConnectOutcome

/-- What `run_scan` can raise: the fatal resolution error from
`resolve_target` (`socket.gaierror`), or an uncaught per-task exception
re-raised by `asyncio.gather`. -/
inductive ScanFailure where
  | resolutionFailure
  | taskError (e : ScanError)
deriving DecidableEq, Repr

/-- Model of `asyncio.gather(*tasks)` with its default
`return_exceptions=False`: if every task completes, the list of their
results; if a task raises, that exception is re-raised and no list is
produced (which exception surfaces first is scheduling-dependent in the
source; the model takes the first in task order). -/
def gatherResults : List (Except ScanError PortResult) → Except ScanError (List PortResult)
  | [] => .ok []
  | x :: rest =>
    match x with
    | .error e => .error e
    | .ok r =>
      match gatherResults rest with
      | .error e => .error e
      | .ok rs => .ok (r :: rs)

/-- The sort key of `run_scan`: ascending port number. -/
def byPortLE (r1 r2 : PortResult) : Prop := r1.port ≤ r2.port

instance : DecidableRel byPortLE :=
  fun r1 r2 => (inferInstance : Decidable (r1.port ≤ r2.port))

instance : IsTotal PortResult byPortLE := ⟨fun a b => Int.le_total a.port b.port⟩

instance : IsTrans PortResult byPortLE := ⟨fun _ _ _ => Int.le_trans⟩

/-- Function `run_scan` from scanner.py: resolve the target first (a failure
propagates as the fatal resolution error); then one `scan_port` task
per requested port, gathered — re-raising any uncaught task exception —
and sorted ascending by port (Python's stable `sorted` modelled by
insertion sort). -/
def run_scan (env : NetEnv) (target : String) (ports : List Int) :
    Except ScanFailure (List PortResult) :=
  match env.resolve target with
  | none => .error .resolutionFailure
  | some ip =>
    match gatherResults (ports.map fun p => scan_port (env.connect ip p) p) with
    | .error e => .error (.taskError e)
    | .ok results => .ok (List.insertionSort byPortLE results)

/-! ### The admission semaphore, as a transition system

`scan_port` wraps its body in `async with semaphore`; the semaphore and
the per-port tasks are modelled as a state-transition system: each task
acquires the counter before entering its connecting-or-reading phase and
releases it when done. -/

/-- Phase of one per-port task relative to the semaphore. -/
inductive TaskPhase where
  | waiting
  | running
  | finished
deriving DecidableEq, Repr

/-- Semaphore counter plus the phase of every scheduled task. -/
structure PoolState where
  counter : Nat
  tasks : List TaskPhase
deriving DecidableEq, Repr

/-- One scheduler step: a waiting task may acquire the semaphore only
when the counter is positive; a running task releases it on exit. -/
inductive PoolStep : PoolState → PoolState → Prop where
  | acquire (s : PoolState) (i : Nat) (h : s.tasks[i]? = some .waiting)
      (hc : 0 < s.counter) :
      PoolStep s ⟨s.counter - 1, s.tasks.set i .running⟩
  | release (s : PoolState) (i : Nat) (h : s.tasks[i]? = some .running) :
      PoolStep s ⟨s.counter + 1, s.tasks.set i .finished⟩

/-- Initial state of a scan: counter at the concurrency limit, one
waiting task per port. -/
def initPool (limit numTasks : Nat) : PoolState :=
  ⟨limit, List.replicate numTasks .waiting⟩

/-- States reachable during a scan with the given limit and task count. -/
def PoolReachable (limit numTasks : Nat) (s : PoolState) : Prop :=
  Relation.ReflTransGen PoolStep (initPool limit numTasks) s

/-- Number of tasks currently in their actively-connecting-or-reading
phase. -/
def runningCount (s : PoolState) : Nat := s.tasks.count .running

/-- A concrete network oracle used to exercise the theorems: every
target resolves, port 22 answers with an SSH-like banner, every other
port refuses the connection. -/
def testEnv : NetEnv where
  resolve := fun _ => some "93.184.216.34"
  connect := fun _ p => if p = 22 then .success (.bytesArrived [83, 83, 72]) else .refused

/-- A concrete network oracle whose target resolution always fails. -/
def failEnv : NetEnv where
  resolve := fun _ => none
  connect := fun _ _ => .refused

/-- A concrete network oracle where resolution succeeds but every
connection is accepted and then reset during the banner read — the
uncaught `ConnectionResetError` path of the source. -/
def resetEnv : NetEnv where
  resolve := fun _ => some "93.184.216.34"
  connect := fun _ _ => .success (.readError .connectionReset)

example : parse_ports (some "22,80,443") = [22, 80, 443] := by decide
example : parse_ports (some "1-3") = [1, 2, 3] := by decide
example : parse_ports (some "22-20") = [] := by decide
example : parse_ports (some "") = TOP_TCP_PORTS := by decide
example : parse_ports (some "0-3") = [1, 2, 3] := by decide
example : parse_ports (some "80, 22,abc,22") = [22, 80] := by decide
example : infer_service 22 none = some "ssh" := by decide
example : infer_service 9999 (some "SSH-2.0-OpenSSH_8.0") = some "ssh" := by decide
example : infer_service 9999 none = none := by decide
example : infer_service 443 (some "anything") = some "https" := by decide

/-! ### Helper lemmas about the port-set fold -/

/-- Membership in a fold of `List.insert` (the model of `set.update`). -/
theorem mem_foldl_insert (l acc : List Int) (p : Int) :
    p ∈ l.foldl (fun s x => s.insert x) acc ↔ p ∈ acc ∨ p ∈ l := by
  induction l generalizing acc with
  | nil => simp
  | cons x xs ih =>
    simp only [List.foldl_cons, ih, List.mem_insert_iff, List.mem_cons]
    tauto

/-- A fold of `List.insert` preserves duplicate-freedom. -/
theorem nodup_foldl_insert (l : List Int) (acc : List Int) (h : acc.Nodup) :
    (l.foldl (fun s x => s.insert x) acc).Nodup := by
  induction l generalizing acc with
  | nil => exact h
  | cons x xs ih => exact ih _ h.insert

/-- Each loop iteration of `parse_ports` preserves duplicate-freedom of
the accumulated set. -/
theorem nodup_addPart (acc : List Int) (part : List Char) (h : acc.Nodup) :
    (addPart acc part).Nodup := by
  simp only [addPart]
  split
  · split
    · exact nodup_foldl_insert _ _ h
    · exact h
  · split
    · exact h.insert
    · exact h

/-- The whole loop of `parse_ports` produces a duplicate-free set. -/
theorem nodup_foldl_addPart (parts : List (List Char)) (acc : List Int) (h : acc.Nodup) :
    (parts.foldl addPart acc).Nodup := by
  induction parts generalizing acc with
  | nil => exact h
  | cons part rest ih => exact ih _ (nodup_addPart _ _ h)

/-- Unfolding of `parse_ports` on a truthy specification string. -/
theorem parse_ports_some_ne (s : String) (hs : s ≠ "") :
    parse_ports (some s) =
      List.insertionSort (· ≤ ·)
        (((pySplit ',' s.data).foldl addPart []).filter inPortRange) := by
  simp [parse_ports, hs]

/-- Splitting a list that does not contain the separator is trivial. -/
theorem pySplit_single (sep : Char) (cs : List Char) (h : sep ∉ cs) :
    pySplit sep cs = [cs] := by
  induction cs with
  | nil => rfl
  | cons c rest ih =>
    have hne : ¬c = sep := fun e => h (e ▸ List.mem_cons_self c rest)
    have hrest : sep ∉ rest := fun m => h (List.mem_cons_of_mem c m)
    simp [pySplit, hne, ih hrest]

/-- Membership in a run of consecutive integers. -/
theorem mem_pyRangeAux (a p : Int) (n : Nat) :
    p ∈ pyRangeAux a n ↔ a ≤ p ∧ p < a + n := by
  induction n generalizing a with
  | zero => simp [pyRangeAux]
  | succ m ih => simp [pyRangeAux, ih]; omega

/-- Membership in the model of Python `range(a, b)`. -/
theorem mem_pyRange (a b p : Int) : p ∈ pyRange a b ↔ a ≤ p ∧ p < b := by
  unfold pyRange
  rw [mem_pyRangeAux]
  omega

/-- On a pre-stripped token containing a dash whose two sides parse as
integers, `addPart` folds the whole inclusive range into the set. -/
theorem addPart_range (acc : List Int) (part : List Char) (a b : Int)
    (hstrip : pyStrip part = part) (hdash : '-' ∈ part)
    (ha : pyInt (pySplit1 '-' part).1 = some a)
    (hb : pyInt (pySplit1 '-' part).2 = some b) :
    addPart acc part = (pyRange a (b + 1)).foldl (fun s x => s.insert x) acc := by
  unfold addPart
  rw [hstrip, if_pos hdash]
  simp only [ha, hb]

/-! ### Helper lemmas about the scan engine -/

/-- Unfolding of `run_scan` when the target resolves. -/
theorem run_scan_resolved (env : NetEnv) (target : String) (ports : List Int) (ip : String)
    (h : env.resolve target = some ip) :
    run_scan env target ports =
      match gatherResults (ports.map fun p => scan_port (env.connect ip p) p) with
      | .error e => .error (.taskError e)
      | .ok results => .ok (List.insertionSort byPortLE results) := by
  unfold run_scan
  rw [h]

/-- Unfolding of `run_scan` when resolution fails. -/
theorem run_scan_err (env : NetEnv) (target : String) (ports : List Int)
    (h : env.resolve target = none) :
    run_scan env target ports = .error .resolutionFailure := by
  unfold run_scan
  rw [h]

/-- `scan_port` raises exactly on the uncaught banner-read exception. -/
theorem scan_port_error_iff (o : ConnectOutcome) (p : Int) (e : ScanError) :
    scan_port o p = .error e ↔ o = .success (.readError e) := by
  cases o with
  | success rd => cases rd <;> simp [scan_port, try_connect, grab_banner, tryFinally]
  | connectTimeout => simp [scan_port, try_connect]
  | refused => simp [scan_port, try_connect]
  | osError => simp [scan_port, try_connect]

/-- `scan_port` completes with a result whenever the connection's read
does not raise an uncaught exception. -/
theorem scan_port_ok_of_no_readError (o : ConnectOutcome) (p : Int)
    (h : ∀ e, o ≠ .success (.readError e)) : ∃ r, scan_port o p = .ok r := by
  cases o with
  | success rd =>
    cases rd with
    | bytesArrived bs => exact ⟨_, rfl⟩
    | readTimeout => exact ⟨_, rfl⟩
    | incompleteRead => exact ⟨_, rfl⟩
    | readError e => exact absurd rfl (h e)
  | connectTimeout => exact ⟨_, rfl⟩
  | refused => exact ⟨_, rfl⟩
  | osError => exact ⟨_, rfl⟩

/-- A completed scan task carries the port it was created for. -/
theorem scan_port_ok_port (o : ConnectOutcome) (p : Int) (r : PortResult)
    (h : scan_port o p = .ok r) : r.port = p := by
  cases o with
  | success rd =>
    cases rd with
    | bytesArrived bs =>
      simp only [scan_port, try_connect, grab_banner, tryFinally, Except.ok.injEq] at h
      rw [← h]
    | readTimeout =>
      simp only [scan_port, try_connect, grab_banner, tryFinally, Except.ok.injEq] at h
      rw [← h]
    | incompleteRead =>
      simp only [scan_port, try_connect, grab_banner, tryFinally, Except.ok.injEq] at h
      rw [← h]
    | readError e => simp [scan_port, try_connect, grab_banner, tryFinally] at h
  | connectTimeout =>
    simp only [scan_port, try_connect, Except.ok.injEq] at h
    rw [← h]
  | refused =>
    simp only [scan_port, try_connect, Except.ok.injEq] at h
    rw [← h]
  | osError =>
    simp only [scan_port, try_connect, Except.ok.injEq] at h
    rw [← h]

/-- A gather over tasks that all completed yields all their results, in
task order. -/
theorem gather_ok_of_forall (l : List (Except ScanError PortResult))
    (h : ∀ x ∈ l, ∃ r, x = Except.ok r) :
    ∃ rs, gatherResults l = .ok rs ∧ l = rs.map Except.ok := by
  induction l with
  | nil => exact ⟨[], rfl, rfl⟩
  | cons x xs ih =>
    obtain ⟨r, hr⟩ := h x (List.mem_cons_self x xs)
    obtain ⟨rs, hrs, hmap⟩ := ih fun y hy => h y (List.mem_cons_of_mem x hy)
    subst hr
    exact ⟨r :: rs, by simp [gatherResults, hrs], by simp [hmap]⟩

/-- A completed gather has one result per task. -/
theorem gather_ok_length (l : List (Except ScanError PortResult))
    (rs : List PortResult) (h : gatherResults l = .ok rs) :
    rs.length = l.length := by
  induction l generalizing rs with
  | nil =>
    simp only [gatherResults, Except.ok.injEq] at h
    rw [← h]
    rfl
  | cons x xs ih =>
    cases x with
    | error e => simp [gatherResults] at h
    | ok r =>
      cases hxs : gatherResults xs with
      | error e => simp [gatherResults, hxs] at h
      | ok rs' =>
        simp only [gatherResults, hxs, Except.ok.injEq] at h
        rw [← h]
        simp [ih rs' hxs]

/-- A raising gather has a raising task. -/
theorem gather_error_mem (l : List (Except ScanError PortResult)) (e : ScanError)
    (h : gatherResults l = .error e) : Except.error e ∈ l := by
  induction l with
  | nil => simp [gatherResults] at h
  | cons x xs ih =>
    cases x with
    | error e' =>
      have h' : (Except.error e' : Except ScanError (List PortResult)) = .error e := h
      injection h' with he
      subst he
      exact List.mem_cons_self _ _
    | ok r =>
      cases hxs : gatherResults xs with
      | error e2 =>
        have h' : (Except.error e2 : Except ScanError (List PortResult)) = .error e := by
          rw [← h]
        injection h' with he
        subst he
        exact List.mem_cons_of_mem _ (ih hxs)
      | ok rs' => simp [gatherResults, hxs] at h

/-- If the scheduled tasks' results line up with the port list, their
ports are exactly the requested ports, in order. -/
theorem map_port_of_map_ok (env : NetEnv) (ip : String) :
    ∀ (ports : List Int) (rs : List PortResult),
      rs.map Except.ok = ports.map (fun p => scan_port (env.connect ip p) p) →
      rs.map PortResult.port = ports := by
  intro ports
  induction ports with
  | nil =>
    intro rs h
    cases rs with
    | nil => rfl
    | cons r rs' => simp at h
  | cons p ps ih =>
    intro rs h
    cases rs with
    | nil => simp at h
    | cons r rs' =>
      simp only [List.map_cons, List.cons.injEq] at h
      obtain ⟨h1, h2⟩ := h
      simp only [List.map_cons, List.cons.injEq]
      exact ⟨scan_port_ok_port _ p r h1.symm, ih rs' h2⟩

/-- Sorting by port preserves the multiset of ports. -/
theorem perm_byPort (rs : List PortResult) :
    List.Perm ((List.insertionSort byPortLE rs).map PortResult.port)
      (rs.map PortResult.port) :=
  (List.perm_insertionSort byPortLE rs).map PortResult.port

/-- Sorting by port sorts the port projections ascending. -/
theorem sorted_byPort (rs : List PortResult) :
    List.Sorted (· ≤ ·) ((List.insertionSort byPortLE rs).map PortResult.port) :=
  List.pairwise_map.mpr (List.sorted_insertionSort byPortLE rs)

/-- The complete behaviour of a resolved scan in which no task raises:
the full sorted result list, one result per requested port. -/
theorem run_scan_ok_spec (env : NetEnv) (target : String) (ports : List Int)
    (ip : String) (h : env.resolve target = some ip)
    (hok : ∀ p ∈ ports, ∀ e, env.connect ip p ≠ .success (.readError e)) :
    ∃ rs, run_scan env target ports = Except.ok rs ∧
      rs.length = ports.length ∧
      List.Perm (rs.map PortResult.port) ports ∧
      List.Sorted (· ≤ ·) (rs.map PortResult.port) := by
  have hall : ∀ x ∈ ports.map (fun p => scan_port (env.connect ip p) p),
      ∃ r, x = Except.ok r := by
    intro x hx
    rw [List.mem_map] at hx
    obtain ⟨p, hp, rfl⟩ := hx
    exact scan_port_ok_of_no_readError _ p (hok p hp)
  obtain ⟨rs0, hg, hmap⟩ := gather_ok_of_forall _ hall
  have hports : rs0.map PortResult.port = ports := map_port_of_map_ok env ip ports rs0 hmap.symm
  refine ⟨List.insertionSort byPortLE rs0, ?_, ?_, ?_, sorted_byPort rs0⟩
  · rw [run_scan_resolved env target ports ip h, hg]
  · have hlen := congrArg List.length hports
    simp only [List.length_map] at hlen
    simp [hlen]
  · rw [← hports]
    exact perm_byPort rs0

/-! ### Helper lemmas about the admission pool -/

/-- Effect of writing one task phase on the count of another phase. -/
theorem count_set_phase (l : List TaskPhase) (i : Nat) (a b c : TaskPhase)
    (h : l[i]? = some a) :
    (l.set i b).count c + (if a = c then 1 else 0) =
      l.count c + (if b = c then 1 else 0) := by
  induction l generalizing i with
  | nil => simp at h
  | cons x xs ih =>
    cases i with
    | zero =>
      simp only [List.getElem?_cons_zero, Option.some.injEq] at h
      subst h
      cases x <;> cases b <;> cases c <;> simp [List.count_cons]
    | succ n =>
      simp only [List.getElem?_cons_succ] at h
      have hx := ih n h
      simp only [List.set_cons_succ, List.count_cons, beq_iff_eq]
      omega

/-- Invariant of the admission pool: the semaphore counter plus the
number of running tasks equals the concurrency limit. -/
theorem pool_counter_invariant (limit numTasks : Nat) (s : PoolState)
    (h : PoolReachable limit numTasks s) :
    s.counter + runningCount s = limit := by
  unfold PoolReachable at h
  induction h with
  | refl => simp [initPool, runningCount, List.count_replicate]
  | @tail b c hab step ih =>
    cases step with
    | acquire i hi hc =>
      have hcnt := count_set_phase b.tasks i .waiting .running .running hi
      simp at hcnt
      simp only [runningCount] at ih ⊢
      omega
    | release i hi =>
      have hcnt := count_set_phase b.tasks i .running .finished .running hi
      simp at hcnt
      simp only [runningCount] at ih ⊢
      omega

/-- General shape of `parse_ports` output: strictly ascending and within
the valid TCP port range, for every input. -/
theorem parse_ports_shape (arg : Option String) :
    List.Sorted (· < ·) (parse_ports arg) ∧
      ∀ p ∈ parse_ports arg, 1 ≤ p ∧ p ≤ 65535 := by
  match arg with
  | none => exact ⟨by decide, by decide⟩
  | some s =>
    by_cases hs : s = ""
    · subst hs
      exact ⟨by decide, by decide⟩
    · rw [parse_ports_some_ne s hs]
      have hnodupA : ((pySplit ',' s.data).foldl addPart []).Nodup :=
        nodup_foldl_addPart _ _ List.nodup_nil
      have hnodupF := hnodupA.filter inPortRange
      have hperm := List.perm_insertionSort (· ≤ ·)
        (((pySplit ',' s.data).foldl addPart []).filter inPortRange)
      have hnodup := hperm.nodup_iff.mpr hnodupF
      have hsortedLE := List.sorted_insertionSort (· ≤ ·)
        (((pySplit ',' s.data).foldl addPart []).filter inPortRange)
      refine ⟨hsortedLE.lt_of_le hnodup, ?_⟩
      intro p hp
      rw [List.mem_insertionSort] at hp
      have hr := List.of_mem_filter hp
      simpa [inPortRange] using hr

/-- The byte list of a non-empty string is non-empty (Python truthiness
of the banner). -/
theorem data_isEmpty_false_of_ne (b : String) (h : b ≠ "") :
    b.data.isEmpty = false := by
  cases b with
  | mk l =>
    cases l with
    | nil => exact absurd rfl h
    | cons c cs => rfl

/-! ### The claims -/

/-- C1 counterexample: with resolution succeeding but every accepted
connection reset by the peer during the banner read — an exception
outside `grab_banner`'s except clause — a scan over two ports raises
and returns no Port Result at all, refuting "exactly N results
regardless of how many probes succeed or fail". -/
theorem claim_C1_counterexample :
    resetEnv.resolve "example.com" = some "93.184.216.34" ∧
      run_scan resetEnv "example.com" [22, 80] =
        Except.error (.taskError .connectionReset) :=
  ⟨rfl, by decide⟩

/-- C1 (amended): whenever the target resolves and no banner read raises
an exception outside the handled ones, `run_scan` returns exactly N
Port Results, one per requested port (the result ports are a
permutation of the requested ports), sorted ascending by port number,
regardless of the input order and of how many probes fail in the
handled ways. -/
theorem claim_C1_run_scan_complete_sorted (env : NetEnv) (target : String)
    (ports : List Int) (ip : String) (h : env.resolve target = some ip)
    (hok : ∀ p ∈ ports, ∀ e, env.connect ip p ≠ .success (.readError e)) :
    ∃ rs, run_scan env target ports = Except.ok rs ∧
      rs.length = ports.length ∧
      List.Perm (rs.map PortResult.port) ports ∧
      List.Sorted (· ≤ ·) (rs.map PortResult.port) :=
  run_scan_ok_spec env target ports ip h hok

/-- Witness for C1 at a concrete environment and port list. -/
theorem claim_C1_witness :
    ∃ rs, run_scan testEnv "example.com" [443, 22, 80] = Except.ok rs ∧
      rs.length = [443, 22, 80].length ∧
      List.Perm (rs.map PortResult.port) [443, 22, 80] ∧
      List.Sorted (· ≤ ·) (rs.map PortResult.port) :=
  claim_C1_run_scan_complete_sorted testEnv "example.com" [443, 22, 80]
    "93.184.216.34" rfl
    (by intro p hp e; fin_cases hp <;> cases e <;> decide)

/-- C2: every failing probe — connect timeout, active refusal, or any
other OS-level error — produces the same Port Result: status "closed"
with banner and service absent, so the three causes are
indistinguishable in the result record. -/
theorem claim_C2_failures_closed_indistinguishable (o : ConnectOutcome) (p : Int)
    (h : ∀ r, o ≠ ConnectOutcome.success r) :
    scan_port o p = Except.ok ⟨p, "closed", none, none⟩ := by
  cases o with
  | success r => exact absurd rfl (h r)
  | connectTimeout => rfl
  | refused => rfl
  | osError => rfl

/-- Witness for C2 at the three concrete failure outcomes. -/
theorem claim_C2_witness :
    scan_port .connectTimeout 8080 = Except.ok ⟨8080, "closed", none, none⟩ ∧
      scan_port .refused 8080 = Except.ok ⟨8080, "closed", none, none⟩ ∧
      scan_port .osError 8080 = Except.ok ⟨8080, "closed", none, none⟩ :=
  ⟨claim_C2_failures_closed_indistinguishable .connectTimeout 8080
      fun _ hr => ConnectOutcome.noConfusion hr,
    claim_C2_failures_closed_indistinguishable .refused 8080
      fun _ hr => ConnectOutcome.noConfusion hr,
    claim_C2_failures_closed_indistinguishable .osError 8080
      fun _ hr => ConnectOutcome.noConfusion hr⟩

/-- C3: for every port-specification input, `parse_ports` returns a
strictly ascending, duplicate-free sequence of integers within
[1, 65535]; malformed or out-of-range tokens are excluded while the
parse always terminates normally (the function is total). -/
theorem claim_C3_parse_sorted_nodup_bounded (arg : Option String) :
    List.Sorted (· < ·) (parse_ports arg) ∧ (parse_ports arg).Nodup ∧
      ∀ p ∈ parse_ports arg, 1 ≤ p ∧ p ≤ 65535 := by
  obtain ⟨h1, h2⟩ := parse_ports_shape arg
  exact ⟨h1, h1.nodup, h2⟩

/-- Witness for C3 on a specification with duplicates, a malformed token
and out-of-range tokens. -/
theorem claim_C3_witness :
    List.Sorted (· < ·) (parse_ports (some "80,22, 80,abc,0,70000")) ∧
      (parse_ports (some "80,22, 80,abc,0,70000")).Nodup ∧
      ∀ p ∈ parse_ports (some "80,22, 80,abc,0,70000"), 1 ≤ p ∧ p ≤ 65535 :=
  claim_C3_parse_sorted_nodup_bounded (some "80,22, 80,abc,0,70000")

/-- C4: the concrete parsing examples of the spec: "22,80,443" gives
[22, 80, 443]; "1-3" gives [1, 2, 3]; "22-20" gives the empty list with
no error; the empty and the absent specification both give the curated
default list TOP_TCP_PORTS. -/
theorem claim_C4_parse_examples :
    parse_ports (some "22,80,443") = [22, 80, 443] ∧
      parse_ports (some "1-3") = [1, 2, 3] ∧
      parse_ports (some "22-20") = [] ∧
      parse_ports (some "") = TOP_TCP_PORTS ∧
      parse_ports none = TOP_TCP_PORTS :=
  ⟨by decide, by decide, by decide, by decide, rfl⟩

/-- C5: `infer_service` is pure and obeys the precedence: a port-table
hit is returned without consulting the banner; otherwise, on a present
banner, the fixed ordered case-insensitive keyword rules — ssh;
http/apache/nginx; smtp; mysql/mariadb; rdp/mstsc — are tried in order
and the first matching rule determines the label; with no table hit and
no matching rule (or no banner) the result is absent; the spec's four
concrete examples hold. -/
theorem claim_C5_infer_service_precedence :
    (∀ (p : Int) (lbl : String) (b : Option String),
        SERVICE_MAP.lookup p = some lbl → infer_service p b = some lbl) ∧
      (∀ (p : Int) (b : String), SERVICE_MAP.lookup p = none → b ≠ "" →
        containsSub "ssh".data (pyLower b.data) = true →
        infer_service p (some b) = some "ssh") ∧
      (∀ (p : Int) (b : String), SERVICE_MAP.lookup p = none → b ≠ "" →
        containsSub "ssh".data (pyLower b.data) = false →
        (containsSub "http".data (pyLower b.data) = true ∨
          containsSub "apache".data (pyLower b.data) = true ∨
          containsSub "nginx".data (pyLower b.data) = true) →
        infer_service p (some b) = some "http") ∧
      (∀ (p : Int) (b : String), SERVICE_MAP.lookup p = none → b ≠ "" →
        containsSub "ssh".data (pyLower b.data) = false →
        containsSub "http".data (pyLower b.data) = false →
        containsSub "apache".data (pyLower b.data) = false →
        containsSub "nginx".data (pyLower b.data) = false →
        containsSub "smtp".data (pyLower b.data) = true →
        infer_service p (some b) = some "smtp") ∧
      (∀ (p : Int) (b : String), SERVICE_MAP.lookup p = none → b ≠ "" →
        containsSub "ssh".data (pyLower b.data) = false →
        containsSub "http".data (pyLower b.data) = false →
        containsSub "apache".data (pyLower b.data) = false →
        containsSub "nginx".data (pyLower b.data) = false →
        containsSub "smtp".data (pyLower b.data) = false →
        (containsSub "mysql".data (pyLower b.data) = true ∨
          containsSub "mariadb".data (pyLower b.data) = true) →
        infer_service p (some b) = some "mysql") ∧
      (∀ (p : Int) (b : String), SERVICE_MAP.lookup p = none → b ≠ "" →
        containsSub "ssh".data (pyLower b.data) = false →
        containsSub "http".data (pyLower b.data) = false →
        containsSub "apache".data (pyLower b.data) = false →
        containsSub "nginx".data (pyLower b.data) = false →
        containsSub "smtp".data (pyLower b.data) = false →
        containsSub "mysql".data (pyLower b.data) = false →
        containsSub "mariadb".data (pyLower b.data) = false →
        (containsSub "rdp".data (pyLower b.data) = true ∨
          containsSub "mstsc".data (pyLower b.data) = true) →
        infer_service p (some b) = some "rdp") ∧
      (∀ (p : Int) (b : String), SERVICE_MAP.lookup p = none →
        containsSub "ssh".data (pyLower b.data) = false →
        containsSub "http".data (pyLower b.data) = false →
        containsSub "apache".data (pyLower b.data) = false →
        containsSub "nginx".data (pyLower b.data) = false →
        containsSub "smtp".data (pyLower b.data) = false →
        containsSub "mysql".data (pyLower b.data) = false →
        containsSub "mariadb".data (pyLower b.data) = false →
        containsSub "rdp".data (pyLower b.data) = false →
        containsSub "mstsc".data (pyLower b.data) = false →
        infer_service p (some b) = none) ∧
      (∀ p : Int, SERVICE_MAP.lookup p = none → infer_service p none = none) ∧
      infer_service 22 none = some "ssh" ∧
      infer_service 9999 (some "SSH-2.0-OpenSSH_8.0") = some "ssh" ∧
      infer_service 9999 none = none ∧
      infer_service 443 (some "anything") = some "https" := by
  refine ⟨?_, ?_, ?_, ?_, ?_, ?_, ?_, ?_, by decide, by decide, by decide, by decide⟩
  · intro p lbl b h
    simp [infer_service, h]
  · intro p b h1 h2 hssh
    simp [infer_service, h1, data_isEmpty_false_of_ne b h2, hssh]
  · intro p b h1 h2 hssh hfam
    rcases hfam with hh | hh | hh <;>
      simp [infer_service, h1, data_isEmpty_false_of_ne b h2, hssh, hh]
  · intro p b h1 h2 hssh hhttp hap hng hsm
    simp [infer_service, h1, data_isEmpty_false_of_ne b h2, hssh, hhttp, hap, hng, hsm]
  · intro p b h1 h2 hssh hhttp hap hng hsm hfam
    rcases hfam with hh | hh <;>
      simp [infer_service, h1, data_isEmpty_false_of_ne b h2, hssh, hhttp, hap, hng,
        hsm, hh]
  · intro p b h1 h2 hssh hhttp hap hng hsm hmy hma hfam
    rcases hfam with hh | hh <;>
      simp [infer_service, h1, data_isEmpty_false_of_ne b h2, hssh, hhttp, hap, hng,
        hsm, hmy, hma, hh]
  · intro p b h1 hssh hhttp hap hng hsm hmy hma hrdp hms
    cases hb : b.data.isEmpty with
    | true => simp [infer_service, h1, hb]
    | false =>
      simp [infer_service, h1, hb, hssh, hhttp, hap, hng, hsm, hmy, hma, hrdp, hms]
  · intro p h1
    simp [infer_service, h1]

/-- Witness for C5: a table hit with a banner that is ignored, plus one
banner exercising each keyword rule and the no-match fallback. -/
theorem claim_C5_witness :
    infer_service 3306 (some "garbage") = some "mysql" ∧
      infer_service 31337 (some "OpenSSH_8.0") = some "ssh" ∧
      infer_service 31337 (some "nginx/1.18.0") = some "http" ∧
      infer_service 31337 (some "220 smtp ready") = some "smtp" ∧
      infer_service 31337 (some "5.7.33 MariaDB") = some "mysql" ∧
      infer_service 31337 (some "MSTSC service") = some "rdp" ∧
      infer_service 31337 (some "hello world") = none :=
  ⟨claim_C5_infer_service_precedence.1 3306 "mysql" (some "garbage") (by decide),
    claim_C5_infer_service_precedence.2.1 31337 "OpenSSH_8.0"
      (by decide) (by decide) (by decide),
    claim_C5_infer_service_precedence.2.2.1 31337 "nginx/1.18.0"
      (by decide) (by decide) (by decide) (Or.inr (Or.inr (by decide))),
    claim_C5_infer_service_precedence.2.2.2.1 31337 "220 smtp ready"
      (by decide) (by decide) (by decide) (by decide) (by decide) (by decide)
      (by decide),
    claim_C5_infer_service_precedence.2.2.2.2.1 31337 "5.7.33 MariaDB"
      (by decide) (by decide) (by decide) (by decide) (by decide) (by decide)
      (by decide) (Or.inr (by decide)),
    claim_C5_infer_service_precedence.2.2.2.2.2.1 31337 "MSTSC service"
      (by decide) (by decide) (by decide) (by decide) (by decide) (by decide)
      (by decide) (by decide) (by decide) (Or.inr (by decide)),
    claim_C5_infer_service_precedence.2.2.2.2.2.2.1 31337 "hello world"
      (by decide) (by decide) (by decide) (by decide) (by decide) (by decide)
      (by decide) (by decide) (by decide) (by decide)⟩

/-- C6 counterexample: the one-byte payload [32] (a single space)
decodes and trims to the empty string, yet `grab_banner` returns the
present empty-string banner, not the absent banner that the claim
requires for every payload whose decode trims to empty. -/
theorem claim_C6_counterexample :
    pyStrip (decodeUtf8Ignore [32]) = [] ∧
      (grab_banner (.bytesArrived [32])).1 = Except.ok (some "") ∧
      (grab_banner (.bytesArrived [32])).1 ≠ Except.ok none :=
  ⟨by decide, by decide, by decide⟩

/-- C6 (amended): `grab_banner` performs a single read bounded by 256
bytes on every path; a non-empty payload yields a present banner equal
to the trimmed permissive decode — possibly the empty string, which is
falsy but distinct from absent; the banner is absent when the read
returns no bytes, times out, or hits the caught incomplete-read error;
an uncaught read exception produces no banner outcome at all — it is
re-raised (after the close) instead of being mapped to absent. -/
theorem claim_C6_banner_read_amended :
    (∀ r : ReadOutcome, (grab_banner r).2 = [.readCall 256, .closeCall]) ∧
      (∀ bs : List Nat, bs ≠ [] →
        (grab_banner (.bytesArrived bs)).1 =
          Except.ok (some (String.mk (pyStrip (decodeUtf8Ignore bs))))) ∧
      (grab_banner (.bytesArrived [])).1 = Except.ok none ∧
      (grab_banner .readTimeout).1 = Except.ok none ∧
      (grab_banner .incompleteRead).1 = Except.ok none ∧
      (∀ e, (grab_banner (.readError e)).1 = Except.error e) := by
  refine ⟨fun r => by cases r <;> rfl, ?_, rfl, rfl, rfl, fun e => rfl⟩
  intro bs h
  have hemp : bs.isEmpty = false := by
    cases bs with
    | nil => exact absurd rfl h
    | cons c cs => rfl
  simp [grab_banner, tryFinally, hemp]

/-- Witness for the amended C6 at a one-byte payload. -/
theorem claim_C6_witness :
    (grab_banner (.bytesArrived [83])).1 =
      Except.ok (some (String.mk (pyStrip (decodeUtf8Ignore [83])))) :=
  claim_C6_banner_read_amended.2.1 [83] (by decide)

/-- C7: on every exit path of `grab_banner` — successful read, empty
read, timeout, caught incomplete-read error, or an uncaught exception
being re-raised — the connection is closed exactly once, and the close
is the last I/O action before the operation returns or re-raises (the
`finally` is modelled by `tryFinally`, which appends the close to the
body's events on normal and exceptional exits alike). -/
theorem claim_C7_connection_always_closed (r : ReadOutcome) :
    (grab_banner r).2.count .closeCall = 1 ∧
      (grab_banner r).2.getLast? = some .closeCall := by
  cases r <;> exact ⟨rfl, rfl⟩

/-- Witness for C7 on the uncaught-exception path. -/
theorem claim_C7_witness :
    (grab_banner (.readError .connectionReset)).2.count .closeCall = 1 ∧
      (grab_banner (.readError .connectionReset)).2.getLast? = some .closeCall :=
  claim_C7_connection_always_closed (.readError .connectionReset)

/-- C8 counterexample: a non-resolution error does cross the core
boundary — with resolution succeeding, a peer reset during the banner
read (uncaught by the source) makes `run_scan` raise a task error,
refuting "no other condition crosses the core boundary as an error". -/
theorem claim_C8_counterexample :
    resetEnv.resolve "scanme.example" = some "93.184.216.34" ∧
      run_scan resetEnv "scanme.example" [80] =
        Except.error (ScanFailure.taskError .connectionReset) ∧
      ScanFailure.taskError .connectionReset ≠ ScanFailure.resolutionFailure :=
  ⟨rfl, by decide, by decide⟩

/-- C8 (amended): if resolution fails, `run_scan` raises the resolution
error before any port work and produces no Port Result; the core never
returns a partial list together with an error: every error crossing the
boundary is either the resolution error (exactly when resolution fails)
or an uncaught banner-read exception re-raised from some port task; and
when resolution succeeds and no task raises, the complete result list —
one result per requested port — is returned. -/
theorem claim_C8_resolution_error_boundary (env : NetEnv) (target : String)
    (ports : List Int) :
    (env.resolve target = none →
      run_scan env target ports = Except.error .resolutionFailure) ∧
      (∀ f, run_scan env target ports = Except.error f →
        (f = .resolutionFailure ∧ env.resolve target = none) ∨
        (∃ e ip, f = ScanFailure.taskError e ∧ env.resolve target = some ip ∧
          ∃ p ∈ ports, env.connect ip p = .success (.readError e))) ∧
      (∀ ip, env.resolve target = some ip →
        (∀ p ∈ ports, ∀ e, env.connect ip p ≠ .success (.readError e)) →
        ∃ rs, run_scan env target ports = Except.ok rs ∧
          rs.length = ports.length ∧ List.Perm (rs.map PortResult.port) ports) := by
  refine ⟨fun h => run_scan_err env target ports h, ?_, ?_⟩
  · intro f hf
    cases hres : env.resolve target with
    | none =>
      rw [run_scan_err env target ports hres] at hf
      injection hf with h1
      exact Or.inl ⟨h1.symm, rfl⟩
    | some ip =>
      rw [run_scan_resolved env target ports ip hres] at hf
      cases hg : gatherResults (ports.map fun p => scan_port (env.connect ip p) p) with
      | ok results =>
        simp only [hg] at hf
        exact Except.noConfusion hf
      | error e =>
        simp only [hg] at hf
        injection hf with h1
        refine Or.inr ⟨e, ip, h1.symm, rfl, ?_⟩
        have hmem := gather_error_mem _ e hg
        rw [List.mem_map] at hmem
        obtain ⟨p, hp, hsp⟩ := hmem
        exact ⟨p, hp, (scan_port_error_iff _ p e).mp hsp⟩
  · intro ip hres hok
    obtain ⟨rs, h1, h2, h3, _⟩ := run_scan_ok_spec env target ports ip hres hok
    exact ⟨rs, h1, h2, h3⟩

/-- Witness for C8 at an environment whose resolution fails. -/
theorem claim_C8_witness :
    run_scan failEnv "nosuchhost.invalid" [22, 80] = Except.error .resolutionFailure :=
  (claim_C8_resolution_error_boundary failEnv "nosuchhost.invalid" [22, 80]).1 rfl

/-- C9: with concurrency limit N, in every state reachable by the
admission pool from a scan's initial state, at most N tasks are in
their actively-connecting-or-reading phase (a waiting task enters only
when the counter is positive); and whenever `run_scan` does return a
result collection, every scheduled task was awaited first — the
collection holds one result per requested port. -/
theorem claim_C9_concurrency_bound :
    (∀ (limit numTasks : Nat) (s : PoolState),
        PoolReachable limit numTasks s → runningCount s ≤ limit) ∧
      (∀ (env : NetEnv) (target : String) (ports : List Int)
          (rs : List PortResult),
        run_scan env target ports = Except.ok rs →
        rs.length = ports.length) := by
  constructor
  · intro limit numTasks s h
    have hinv := pool_counter_invariant limit numTasks s h
    omega
  · intro env target ports rs h
    cases hres : env.resolve target with
    | none =>
      rw [run_scan_err env target ports hres] at h
      exact Except.noConfusion h
    | some ip =>
      rw [run_scan_resolved env target ports ip hres] at h
      cases hg : gatherResults (ports.map fun p => scan_port (env.connect ip p) p) with
      | error e =>
        simp only [hg] at h
        exact Except.noConfusion h
      | ok results =>
        simp only [hg] at h
        injection h with h1
        rw [← h1, (List.perm_insertionSort byPortLE results).length_eq,
          gather_ok_length _ results hg]
        simp

/-- Witness for C9: with limit 2 and three tasks, the state reached by
two acquisitions has two running tasks, within the bound; and a
completed three-port scan carries three results. -/
theorem claim_C9_witness :
    runningCount ⟨0, [.running, .running, .waiting]⟩ ≤ 2 ∧
      ([⟨22, "open", some "SSH", some "ssh"⟩, ⟨80, "closed", none, none⟩,
          ⟨443, "closed", none, none⟩] : List PortResult).length =
        [443, 22, 80].length := by
  constructor
  · refine claim_C9_concurrency_bound.1 2 3 _ ?_
    have h1 : PoolStep (initPool 2 3) ⟨1, [.running, .waiting, .waiting]⟩ :=
      PoolStep.acquire (initPool 2 3) 0 (by decide) (by decide)
    have h2 : PoolStep (⟨1, [.running, .waiting, .waiting]⟩ : PoolState)
        ⟨0, [.running, .running, .waiting]⟩ :=
      PoolStep.acquire ⟨1, [.running, .waiting, .waiting]⟩ 1 (by decide) (by decide)
    exact Relation.ReflTransGen.tail (Relation.ReflTransGen.tail .refl h1) h2
  · exact claim_C9_concurrency_bound.2 testEnv "example.com" [443, 22, 80] _ (by decide)

set_option maxRecDepth 8000 in
/-- C10: a pre-stripped range token "a-b" (no comma, both sides parsing
as integers) contributes exactly the values of [a, b] that lie in
[1, 65535]: out-of-range endpoints clamp the contributed values instead
of dropping the token, as in the two concrete examples. -/
theorem claim_C10_range_token_clamped :
    (∀ (s : List Char) (a b : Int),
        pyStrip s = s → ',' ∉ s → '-' ∈ s →
        pyInt (pySplit1 '-' s).1 = some a →
        pyInt (pySplit1 '-' s).2 = some b →
        ∀ p : Int, p ∈ parse_ports (some (String.mk s)) ↔
          a ≤ p ∧ p ≤ b ∧ 1 ≤ p ∧ p ≤ 65535) ∧
      parse_ports (some "65530-65600") =
        [65530, 65531, 65532, 65533, 65534, 65535] ∧
      parse_ports (some "0-3") = [1, 2, 3] := by
  refine ⟨?_, by decide, by decide⟩
  intro s a b hstrip hnc hdash ha hb p
  have hsne : s ≠ [] := by
    rintro rfl
    simp at hdash
  have hsne' : String.mk s ≠ "" := fun h => hsne (congrArg String.data h)
  rw [parse_ports_some_ne _ hsne']
  show p ∈ List.insertionSort (· ≤ ·)
      (((pySplit ',' s).foldl addPart []).filter inPortRange) ↔ _
  rw [pySplit_single ',' s hnc]
  simp only [List.foldl_cons, List.foldl_nil]
  rw [addPart_range [] s a b hstrip hdash ha hb]
  rw [List.mem_insertionSort, List.mem_filter, mem_foldl_insert]
  simp only [List.not_mem_nil, false_or, mem_pyRange, inPortRange,
    Bool.and_eq_true, decide_eq_true_eq]
  omega

/-- Witness for C10 at the token "65530-65600" and port 65531. -/
theorem claim_C10_witness :
    65531 ∈ parse_ports (some (String.mk "65530-65600".data)) ↔
      (65530 : Int) ≤ 65531 ∧ (65531 : Int) ≤ 65600 ∧
        (1 : Int) ≤ 65531 ∧ (65531 : Int) ≤ 65535 :=
  claim_C10_range_token_clamped.1 "65530-65600".data 65530 65600
    (by decide) (by decide) (by decide) (by decide) (by decide) 65531

end PortScanner
